import Mathlib

/-!
Verification of the resilience layer of the weather API proxy service
(`API Proxy Service/main.py`) and its heartbeat monitor
(`HeartBeat Service/main.py`).

Shallow embedding conventions:
* Timestamps are integers (seconds); `datetime.datetime.now()` is passed in
  as an explicit `now : Int` parameter, and the elapsed-time computation
  `(now - last_failure_time).total_seconds()` becomes `now - t` over `Int`.
* The module-level dictionaries `failure_counts` and `last_failure_time`
  become a `BreakerState` record per provider, threaded explicitly.
* Network I/O is replaced by a `FetchOutcome` parameter describing what the
  upstream call would have produced (HTTP status class, error marker in the
  body, timeout, connection error, or a successful payload); the Python
  control flow over that outcome is translated branch by branch.
* Raised exceptions become a `FetchResult` value recording which exception
  class escaped `fetch_from_weatherapi` / `fetch_from_weatherstack`.
-/

namespace Proxy

/-- `MAX_FAILURES = 3` from `main.py`. -/
def MAX_FAILURES : Nat := 3

/-- `RESET_TIMEOUT = 300` seconds from `main.py`. -/
def RESET_TIMEOUT : Int := 300

/-- Per-provider circuit-breaker state: the entries of the module-level
dictionaries `failure_counts[api_name]` and `last_failure_time[api_name]`. -/
structure BreakerState where
  failures : Nat
  lastFailureAt : Option Int
  deriving Repr, DecidableEq

/-- Initial state: `failure_counts = 0`, `last_failure_time = None`. -/
def BreakerState.init : BreakerState := { failures := 0, lastFailureAt := none }

/-- The failure-recording statements that appear (inlined) throughout
`fetch_from_weatherapi` / `fetch_from_weatherstack`:
`failure_counts[x] += 1; last_failure_time[x] = datetime.datetime.now()`. -/
def recordFailure (now : Int) (st : BreakerState) : BreakerState :=
  { failures := st.failures + 1, lastFailureAt := some now }

/-- The success-recording statement on the success path of both fetch
functions: `failure_counts[x] = 0`.  Note the source does NOT touch
`last_failure_time` here. -/
def recordSuccess (st : BreakerState) : BreakerState :=
  { st with failures := 0 }

/-- `check_circuit_breaker` from `main.py` (lines 58-70), parameterised by
the module constants.  Returns the Python return value (`True` = closed,
allow the request) together with the possibly self-reset state. -/
def check_circuit_breaker (maxF : Nat) (resetT : Int) (now : Int)
    (st : BreakerState) : Bool × BreakerState :=
  if maxF ≤ st.failures then
    match st.lastFailureAt with
    | some t =>
        if now - t < resetT then
          (false, st)
        else
          (true, { failures := 0, lastFailureAt := none })
    | none => (true, st)
  else
    (true, st)

/-- The derived "Open" state of §4.1 of the design: at or above threshold and
still within `RESET_TIMEOUT` of the last failure. -/
def breakerIsOpen (now : Int) (st : BreakerState) : Bool :=
  decide (MAX_FAILURES ≤ st.failures) &&
    match st.lastFailureAt with
    | some t => decide (now - t < RESET_TIMEOUT)
    | none => false

/-- What the upstream HTTP call inside a fetch function would produce:
the classification branches of `fetch_from_weatherapi` (lines 76-100).
`success` carries the fields the normalisation extracts from the body. -/
inductive FetchOutcome where
  /-- 2xx response whose body parses with no `"error"` key. -/
  | success (city : String) (temperature : Int) (condition : String)
  /-- `status_code == 429`. -/
  | rateLimited
  /-- `status_code in [401, 403]`. -/
  | authError
  /-- any other non-2xx status (raised by `response.raise_for_status()`). -/
  | httpError
  /-- 2xx response whose body contains an `"error"` key. -/
  | bodyError
  /-- `httpx` timeout while performing the request. -/
  | timeout
  /-- `httpx` connection-level failure while performing the request. -/
  | transportError
  deriving Repr, DecidableEq

/-- Whether the outcome is one of the five failure classifications. -/
def FetchOutcome.isFail : FetchOutcome → Bool
  | .success _ _ _ => false
  | _ => true

/-- The normalised result dict returned by a fetch function on success. -/
structure WeatherData where
  source : String
  city : String
  temperature : Int
  condition : String
  deriving Repr, DecidableEq

/-- How a call to `fetch_from_weatherapi` / `fetch_from_weatherstack`
terminates, as observed by `get_weather`: a returned dict or the class of
the exception that escaped. -/
inductive FetchResult where
  | ok (d : WeatherData)
  /-- an `httpx.HTTPStatusError` escaped. -/
  | httpStatusError
  /-- an `httpx.RequestError` (timeout / connection error) escaped. -/
  | requestError
  /-- a plain `Exception` (the `"API Error: ..."` raise) escaped. -/
  | genericError
  /-- the `HTTPException(503)` raised when the breaker check fails. -/
  | breakerOpen
  deriving Repr, DecidableEq

/-- Common body of `fetch_from_weatherapi` (lines 72-100) and
`fetch_from_weatherstack` (lines 102-131): breaker check, the upstream
call classified by `o`, and the `except httpx.HTTPStatusError` handler
(which is the only handler, so timeouts and connection errors escape
without touching the failure counters, while 401/403 increments twice:
once in the branch and once in the handler). -/
def fetch_provider (source : String) (now : Int) (o : FetchOutcome)
    (st : BreakerState) : FetchResult × BreakerState :=
  let c := check_circuit_breaker MAX_FAILURES RESET_TIMEOUT now st
  if c.1 then
    match o with
    | .success city temp cond =>
        (.ok { source := source, city := city, temperature := temp, condition := cond },
         recordSuccess c.2)
    | .rateLimited => (.httpStatusError, recordFailure now c.2)
    | .authError => (.httpStatusError, recordFailure now (recordFailure now c.2))
    | .httpError => (.httpStatusError, recordFailure now c.2)
    | .bodyError => (.genericError, recordFailure now c.2)
    | .timeout => (.requestError, c.2)
    | .transportError => (.requestError, c.2)
  else
    (.breakerOpen, c.2)

/-- Process-wide mutable state of the proxy touched by `get_weather`. -/
structure ProxyState where
  weatherapi : BreakerState
  weatherstack : BreakerState
  active_api : String
  deriving Repr, DecidableEq

/-- Start-of-process state of `main.py`. -/
def ProxyState.init : ProxyState :=
  { weatherapi := BreakerState.init, weatherstack := BreakerState.init,
    active_api := "weatherapi" }

/-- The heartbeat messages `get_weather` pushes through `notify_heartbeat`,
one constructor per f-string template (the template determines the
message up to the interpolated values, which the constructors carry). -/
inductive Event where
  /-- "Primary API active: ..." / "Fallback API active: ..." -/
  | selected (provider city : String)
  /-- "X failed: ..." (`unexpected = false`) or
      "Unexpected error with X: ..." (`unexpected = true`). -/
  | failed (provider : String) (unexpected : Bool)
  /-- "X circuit breaker open, skipping". -/
  | skipped (provider : String)
  /-- "All APIs failed. Returning stub response.". -/
  | allFailed
  deriving Repr, DecidableEq

/-- The 503 stub body built at lines 171-177 of `main.py`. -/
structure StubBody where
  city : String
  temperature : Option Int
  condition : String
  message : String
  timestamp : Int
  deriving Repr, DecidableEq

/-- The concrete stub content of `main.py`. -/
def stubBody (city : String) (now : Int) : StubBody :=
  { city := city, temperature := none, condition := "Unavailable",
    message := "Both weather services are down. This is a stubbed response.",
    timestamp := now }

/-- What `get_weather` returns to the HTTP layer. -/
inductive WeatherResponse where
  | ok (d : WeatherData)
  | stub (b : StubBody)
  deriving Repr, DecidableEq

/-- HTTP status code of a `get_weather` response. -/
def WeatherResponse.statusCode : WeatherResponse → Nat
  | .ok _ => 200
  | .stub _ => 503

/-- A complete run of the `get_weather` handler: its return value, the
mutated process state, the heartbeat events in emission order, and the
providers whose fetch function actually issued a network request. -/
structure GetWeatherRun where
  response : WeatherResponse
  state : ProxyState
  events : List Event
  calls : List String
  deriving Repr, DecidableEq

/-- The fallback half of `get_weather` (lines 154-177): try weatherstack if
its breaker permits, else fall through to the stub response. -/
def tryFallback (city : String) (now : Int) (oB : FetchOutcome)
    (st : ProxyState) (evs : List Event) (calls : List String) : GetWeatherRun :=
  let c := check_circuit_breaker MAX_FAILURES RESET_TIMEOUT now st.weatherstack
  let st1 := { st with weatherstack := c.2 }
  if c.1 then
    match fetch_provider "weatherstack" now oB st1.weatherstack with
    | (.ok d, b2) =>
        { response := .ok d,
          state := { st1 with weatherstack := b2, active_api := "weatherstack" },
          events := evs ++ [.selected "weatherstack" city],
          calls := calls ++ ["weatherstack"] }
    | (.genericError, b2) =>
        { response := .stub (stubBody city now),
          state := { st1 with weatherstack := b2 },
          events := evs ++ [.failed "weatherstack" true, .allFailed],
          calls := calls ++ ["weatherstack"] }
    | (_, b2) =>
        { response := .stub (stubBody city now),
          state := { st1 with weatherstack := b2 },
          events := evs ++ [.failed "weatherstack" false, .allFailed],
          calls := calls ++ ["weatherstack"] }
  else
    { response := .stub (stubBody city now),
      state := st1,
      events := evs ++ [.skipped "weatherstack", .allFailed],
      calls := calls }

/-- `get_weather` from `main.py` (lines 133-177).  `oA` / `oB` describe
what the network would answer for each provider; they are consulted only
if the corresponding fetch is reached. -/
def get_weather (city : String) (now : Int) (oA oB : FetchOutcome)
    (st : ProxyState) : GetWeatherRun :=
  let c := check_circuit_breaker MAX_FAILURES RESET_TIMEOUT now st.weatherapi
  let st1 := { st with weatherapi := c.2 }
  if c.1 then
    match fetch_provider "weatherapi" now oA st1.weatherapi with
    | (.ok d, a2) =>
        { response := .ok d,
          state := { st1 with weatherapi := a2, active_api := "weatherapi" },
          events := [.selected "weatherapi" city],
          calls := ["weatherapi"] }
    | (.genericError, a2) =>
        tryFallback city now oB { st1 with weatherapi := a2 }
          [.failed "weatherapi" true] ["weatherapi"]
    | (_, a2) =>
        tryFallback city now oB { st1 with weatherapi := a2 }
          [.failed "weatherapi" false] ["weatherapi"]
  else
    tryFallback city now oB st1 [.skipped "weatherapi"] []

/-- `/health` response body (lines 179-201). -/
structure HealthBody where
  status : String
  active_api : String
  inactive_apis : List String
  breaker_weatherapi : String
  breaker_weatherstack : String
  failures_weatherapi : Nat
  failures_weatherstack : Nat
  time : Int
  deriving Repr, DecidableEq

/-- The `"open"` / `"closed"` entry of `circuit_status` in `health`:
`"open" if failure_counts[x] >= MAX_FAILURES else "closed"`. -/
def circuitStatus (failures : Nat) : String :=
  if MAX_FAILURES ≤ failures then "open" else "closed"

/-- The `health` endpoint handler (lines 179-201).  It reads the counters
without calling `check_circuit_breaker`, so it never mutates state. -/
def health (st : ProxyState) (now : Int) : HealthBody :=
  let sA := circuitStatus st.weatherapi.failures
  let sB := circuitStatus st.weatherstack.failures
  { status := "ok",
    active_api := st.active_api,
    inactive_apis :=
      (if sA = "open" then ["weatherapi"] else []) ++
      (if sB = "open" then ["weatherstack"] else []),
    breaker_weatherapi := sA,
    breaker_weatherstack := sB,
    failures_weatherapi := st.weatherapi.failures,
    failures_weatherstack := st.weatherstack.failures,
    time := now }

/-- `notify_heartbeat` (lines 42-56).  `clients` is `websocket_clients`,
`sendFails c = true` means `await ws.send_text(event)` raises for client
`c` during this publish.  Returns the clients that received the event and
the registry after pruning (`for ws in disconnected_clients: if ws in
websocket_clients: websocket_clients.remove(ws)`; Python's `list.remove`
deletes the first occurrence, as does `List.erase`). -/
def notify_heartbeat (clients : List Nat) (sendFails : Nat → Bool) :
    List Nat × List Nat :=
  let disconnected := clients.filter sendFails
  let delivered := clients.filter (fun c => !sendFails c)
  let remaining :=
    disconnected.foldl (fun acc ws => if ws ∈ acc then acc.erase ws else acc) clients
  (delivered, remaining)

end Proxy

namespace Heartbeat

/-- `MAX_BACKOFF` default from `HeartBeat Service/main.py`. -/
def MAX_BACKOFF : Nat := 60

/-- One update of the `backoff` local in `ping_health_endpoint` /
`listen_to_websocket`: `backoff = 1` on success, otherwise
`backoff = min(backoff * 2, MAX_BACKOFF)`. -/
def backoffStep (maxB back : Nat) (ok : Bool) : Nat :=
  if ok then 1 else min (back * 2) maxB

/-- The value of `backoff` at the start of each attempt of a monitor loop
run whose attempt results are `tries` (`true` = success), starting from
the current value `back` (`backoff = 1` at loop entry). -/
def backoffTrace (maxB back : Nat) : List Bool → List Nat
  | [] => []
  | ok :: rest => back :: backoffTrace maxB (backoffStep maxB back ok) rest

end Heartbeat

namespace Proxy

/-- The state obtained after permit self-resets always permits again. -/
lemma check_on_reset (maxF : Nat) (resetT now : Int) :
    check_circuit_breaker maxF resetT now { failures := 0, lastFailureAt := none } =
      (true, { failures := 0, lastFailureAt := none }) := by
  unfold check_circuit_breaker
  split <;> rfl

/-- A breaker strictly below threshold is permitted and left untouched. -/
lemma check_closed (maxF : Nat) (resetT now : Int) (st : BreakerState)
    (h : st.failures < maxF) :
    check_circuit_breaker maxF resetT now st = (true, st) := by
  unfold check_circuit_breaker
  rw [if_neg (by omega)]

/-- The still-open branch of `check_circuit_breaker`: at threshold with a
recorded failure inside the reset window, permit refuses and changes
nothing. -/
lemma check_open (maxF : Nat) (resetT now t : Int) (st : BreakerState)
    (h1 : st.lastFailureAt = some t) (h2 : maxF ≤ st.failures) (h3 : now - t < resetT) :
    check_circuit_breaker maxF resetT now st = (false, st) := by
  simp [check_circuit_breaker, h1, h2, h3]

/-- The half-open self-reset branch of `check_circuit_breaker`. -/
lemma check_reset (maxF : Nat) (resetT now t : Int) (st : BreakerState)
    (h1 : st.lastFailureAt = some t) (h2 : maxF ≤ st.failures) (h3 : resetT ≤ now - t) :
    check_circuit_breaker maxF resetT now st =
      (true, { failures := 0, lastFailureAt := none }) := by
  have h4 : ¬ now - t < resetT := by omega
  simp [check_circuit_breaker, h1, h2, h4]

/-- At or above threshold with no recorded failure time, permit returns
`True` without resetting anything. -/
lemma check_no_timestamp (maxF : Nat) (resetT now : Int) (st : BreakerState)
    (h1 : maxF ≤ st.failures) (h2 : st.lastFailureAt = none) :
    check_circuit_breaker maxF resetT now st = (true, st) := by
  simp [check_circuit_breaker, h1, h2]

/-- Every run of `check_circuit_breaker` permits unchanged, refuses
unchanged, or permits after the self-reset. -/
lemma check_cases (maxF : Nat) (resetT now : Int) (st : BreakerState) :
    check_circuit_breaker maxF resetT now st = (true, st) ∨
      check_circuit_breaker maxF resetT now st = (false, st) ∨
      check_circuit_breaker maxF resetT now st =
        (true, { failures := 0, lastFailureAt := none }) := by
  by_cases hm : maxF ≤ st.failures
  · rcases hl : st.lastFailureAt with _ | t
    · exact Or.inl (check_no_timestamp maxF resetT now st hm hl)
    · by_cases he : now - t < resetT
      · exact Or.inr (Or.inl (check_open maxF resetT now t st hl hm he))
      · exact Or.inr (Or.inr (check_reset maxF resetT now t st hl hm (by omega)))
  · exact Or.inl (check_closed maxF resetT now st (by omega))

/-- Characterisation of the `False` return of `check_circuit_breaker`. -/
lemma check_false_iff (maxF : Nat) (resetT now : Int) (st : BreakerState) :
    (check_circuit_breaker maxF resetT now st).1 = false ↔
      maxF ≤ st.failures ∧ ∃ t, st.lastFailureAt = some t ∧ now - t < resetT := by
  by_cases hm : maxF ≤ st.failures
  · rcases hl : st.lastFailureAt with _ | t
    · rw [check_no_timestamp maxF resetT now st hm hl]
      simp [hl]
    · by_cases he : now - t < resetT
      · rw [check_open maxF resetT now t st hl hm he]
        simp [hl, hm, he]
      · rw [check_reset maxF resetT now t st hl hm (by omega)]
        simp [hl, he]
  · rw [check_closed maxF resetT now st (by omega)]
    simp [hm]

/-- When permit returns `False` the state is unchanged. -/
lemma check_false_snd (maxF : Nat) (resetT now : Int) (st : BreakerState)
    (h : (check_circuit_breaker maxF resetT now st).1 = false) :
    (check_circuit_breaker maxF resetT now st).2 = st := by
  rcases check_cases maxF resetT now st with hc | hc | hc
  · rw [hc]
  · rw [hc]
  · rw [hc] at h
    simp at h

/-- If permit returns `True`, running it again on the state it left behind
returns `True` and changes nothing (so the breaker check in `get_weather`
followed by the one inside the fetch function permits both times). -/
lemma check_permit_again (maxF : Nat) (resetT now : Int) (st : BreakerState)
    (h : (check_circuit_breaker maxF resetT now st).1 = true) :
    check_circuit_breaker maxF resetT now (check_circuit_breaker maxF resetT now st).2 =
      (true, (check_circuit_breaker maxF resetT now st).2) := by
  rcases check_cases maxF resetT now st with hc | hc | hc
  · rw [hc]
    exact hc
  · rw [hc] at h
    simp at h
  · rw [hc]
    exact check_on_reset maxF resetT now

end Proxy

namespace Proxy

/-- The `t = 0, 1, 2` failure trace of the C2 scenario. -/
def scenarioState : BreakerState :=
  recordFailure 2 (recordFailure 1 (recordFailure 0 BreakerState.init))

/-- C2 counterexample: with threshold 3 and reset timeout 300, after the
three recorded failures at t = 0, 1, 2, `check_circuit_breaker` does refuse
at t = 3, but at t = 301 it still refuses — only 299 seconds have elapsed
since the last failure at t = 2 — contradicting the claim that permit
returns true at t = 301. -/
theorem scenario_permit_at_301_cex :
    (check_circuit_breaker 3 300 3 scenarioState).1 = false ∧
      ¬ (check_circuit_breaker 3 300 301 scenarioState).1 = true := by
  decide

/-- C2 (amended): threshold 3, reset timeout 300, failures recorded at
t = 0, 1, 2.  Permit is false at t = 3 and still false at t = 301; at
t = 302 (300 seconds after the last failure) permit self-resets the count
to 0 and returns true; a single subsequent recorded failure at t = 302 sets
the count to 1 and restarts the timer at 302, but permit remains true at
t = 303 because one failure is below the threshold. -/
theorem scenario_permit_trace :
    (check_circuit_breaker 3 300 3 scenarioState).1 = false ∧
      (check_circuit_breaker 3 300 301 scenarioState).1 = false ∧
      check_circuit_breaker 3 300 302 scenarioState =
        (true, { failures := 0, lastFailureAt := none }) ∧
      recordFailure 302 (check_circuit_breaker 3 300 302 scenarioState).2 =
        { failures := 1, lastFailureAt := some 302 } ∧
      (check_circuit_breaker 3 300 303
          (recordFailure 302 (check_circuit_breaker 3 300 302 scenarioState).2)).1 = true := by
  decide

/-- C3: for every threshold, reset timeout, time and state, permit returns
false exactly when the failure count has reached the threshold and the time
elapsed since the recorded last failure is less than the reset timeout; and
whenever the count is at threshold and the reset timeout has elapsed since
the recorded last failure, permit returns true and self-resets the state
(count 0, no failure time) — the half-open transition. -/
theorem permit_false_iff_open (maxF : Nat) (resetT now : Int) (st : BreakerState) :
    ((check_circuit_breaker maxF resetT now st).1 = false ↔
      maxF ≤ st.failures ∧ ∃ t, st.lastFailureAt = some t ∧ now - t < resetT) ∧
    (∀ t, st.lastFailureAt = some t → maxF ≤ st.failures → resetT ≤ now - t →
      check_circuit_breaker maxF resetT now st =
        (true, { failures := 0, lastFailureAt := none })) := by
  constructor
  · exact check_false_iff maxF resetT now st
  · intro t h1 h2 h3
    exact check_reset maxF resetT now t st h1 h2 h3

/-- Witness for `permit_false_iff_open` at threshold 3, timeout 300: the
open breaker `⟨3, some 2⟩` refuses at t = 3, and the elapsed breaker
`⟨3, some 50⟩` self-resets at t = 400. -/
theorem permit_false_iff_open_witness :
    (check_circuit_breaker 3 300 3 { failures := 3, lastFailureAt := some 2 }).1 = false ∧
      check_circuit_breaker 3 300 400 { failures := 3, lastFailureAt := some 50 } =
        (true, { failures := 0, lastFailureAt := none }) :=
  ⟨(permit_false_iff_open 3 300 3 { failures := 3, lastFailureAt := some 2 }).1.mpr
      ⟨by decide, 2, rfl, by decide⟩,
   (permit_false_iff_open 3 300 400 { failures := 3, lastFailureAt := some 50 }).2 50
      rfl (by decide) (by decide)⟩

/-- C4 counterexample: on the success path the source only executes
`failure_counts[x] = 0`; at prior state `⟨2, some 5⟩` a successful fetch
leaves `last_failure_time` at `some 5` instead of clearing it to `None` as
the claim states. -/
theorem success_keeps_lastFailure_cex :
    (fetch_provider "weatherapi" 10 (.success "c" 20 "Sunny")
        { failures := 2, lastFailureAt := some 5 }).2.failures = 0 ∧
      ¬ (fetch_provider "weatherapi" 10 (.success "c" 20 "Sunny")
          { failures := 2, lastFailureAt := some 5 }).2.lastFailureAt = none := by
  decide

/-- C4 (amended): recording a success resets `consecutiveFailures` to 0 for
every prior state but leaves `lastFailureAt` unchanged; it is cleared only
by permit's half-open self-reset. -/
theorem recordSuccess_resets_count_only (st : BreakerState) :
    (recordSuccess st).failures = 0 ∧
      (recordSuccess st).lastFailureAt = st.lastFailureAt :=
  ⟨rfl, rfl⟩

/-- The reachable-state invariant of the breaker dictionaries: whenever the
failure count is nonzero, a last-failure time is recorded. -/
def BreakerInv (st : BreakerState) : Prop :=
  st.lastFailureAt = none → st.failures = 0

/-- Recording a failure always re-establishes the invariant. -/
lemma inv_recordFailure (now : Int) (st : BreakerState) :
    BreakerInv (recordFailure now st) := by
  intro hx
  simp [recordFailure] at hx

/-- Recording a success always re-establishes the invariant. -/
lemma inv_recordSuccess (st : BreakerState) : BreakerInv (recordSuccess st) :=
  fun _ => rfl

/-- `check_circuit_breaker` preserves the invariant. -/
lemma inv_check (maxF : Nat) (resetT now : Int) (st : BreakerState) (h : BreakerInv st) :
    BreakerInv (check_circuit_breaker maxF resetT now st).2 := by
  rcases check_cases maxF resetT now st with hc | hc | hc <;> rw [hc]
  · exact h
  · exact h
  · exact fun _ => rfl

/-- A whole fetch call preserves the invariant. -/
lemma inv_fetch (s : String) (now : Int) (o : FetchOutcome) (st : BreakerState)
    (h : BreakerInv st) : BreakerInv (fetch_provider s now o st).2 := by
  have hc := inv_check MAX_FAILURES RESET_TIMEOUT now st h
  unfold fetch_provider
  cases hb : (check_circuit_breaker MAX_FAILURES RESET_TIMEOUT now st).1
  · simpa [hb] using hc
  · cases o <;>
      simp only [hb, if_true, Prod.snd] <;>
        first
          | exact inv_recordSuccess _
          | exact inv_recordFailure _ _
          | exact hc

/-- C10: the invariant (count ≥ 1 forces a recorded failure time) holds
initially and is preserved by permit, by failure recording, by success
recording and by every whole fetch call; consequently no reachable state
has the count at threshold with `lastFailureAt = None`, and on that
unreachable branch `check_circuit_breaker` returns true without resetting
the count. -/
theorem breaker_inv_preserved :
    BreakerInv BreakerState.init ∧
    (∀ now st, BreakerInv st → BreakerInv (recordFailure now st)) ∧
    (∀ st, BreakerInv st → BreakerInv (recordSuccess st)) ∧
    (∀ maxF resetT now st, BreakerInv st →
      BreakerInv (check_circuit_breaker maxF resetT now st).2) ∧
    (∀ s now o st, BreakerInv st → BreakerInv (fetch_provider s now o st).2) ∧
    (∀ st, BreakerInv st → ∀ maxF : Nat, 1 ≤ maxF → maxF ≤ st.failures →
      st.lastFailureAt ≠ none) ∧
    (∀ maxF resetT now st, maxF ≤ st.failures → st.lastFailureAt = none →
      check_circuit_breaker maxF resetT now st = (true, st)) := by
  refine ⟨fun _ => rfl, fun now st _ => inv_recordFailure now st,
    fun st _ => inv_recordSuccess st,
    fun maxF resetT now st h => inv_check maxF resetT now st h,
    fun s now o st h => inv_fetch s now o st h,
    fun st h maxF h1 h2 hnone => ?_,
    fun maxF resetT now st h1 h2 => check_no_timestamp maxF resetT now st h1 h2⟩
  have := h hnone
  omega

/-- Witness for `breaker_inv_preserved`: the preservation clauses applied
along a concrete failure trace from the initial state. -/
theorem breaker_inv_preserved_witness :
    BreakerInv (recordFailure 5 BreakerState.init) ∧
      BreakerInv (fetch_provider "weatherapi" 9 .authError
        (recordFailure 5 BreakerState.init)).2 :=
  ⟨breaker_inv_preserved.2.1 5 BreakerState.init breaker_inv_preserved.1,
   breaker_inv_preserved.2.2.2.2.1 "weatherapi" 9 .authError
     (recordFailure 5 BreakerState.init)
     (breaker_inv_preserved.2.1 5 BreakerState.init breaker_inv_preserved.1)⟩

end Proxy

namespace Heartbeat

/-- C9: the backoff delay of each monitor loop stays within
`[1, MAX_BACKOFF]` across every attempt outcome; a failed attempt doubles
it capped at `MAX_BACKOFF`, a successful attempt resets it to 1, and the
delays in effect at three consecutive failing attempts from loop entry are
1, 2, 4. -/
theorem backoff_invariant_and_trace :
    (∀ maxB back : Nat, ∀ ok : Bool, 1 ≤ back → back ≤ maxB →
      1 ≤ backoffStep maxB back ok ∧ backoffStep maxB back ok ≤ maxB) ∧
    (∀ maxB back : Nat, backoffStep maxB back false = min (back * 2) maxB) ∧
    (∀ maxB back : Nat, backoffStep maxB back true = 1) ∧
    backoffTrace MAX_BACKOFF 1 [false, false, false] = [1, 2, 4] := by
  refine ⟨fun maxB back ok h1 h2 => ?_, fun maxB back => rfl, fun maxB back => rfl, by decide⟩
  cases ok <;> simp [backoffStep] <;> omega

/-- Witness for `backoff_invariant_and_trace`: the bounds clause at
`maxB = 60`, `back = 4`, a failing attempt. -/
theorem backoff_invariant_and_trace_witness :
    1 ≤ backoffStep 60 4 false ∧ backoffStep 60 4 false ≤ 60 :=
  backoff_invariant_and_trace.1 60 4 false (by decide) (by decide)

end Heartbeat

namespace Proxy

/-- The net effect of one failing fetch on the provider's breaker entry:
status-classified failures and the error-marker body record one failure
(auth errors record two, once in the 401/403 branch and once in the
`except` handler); timeouts and connection errors record none because only
`httpx.HTTPStatusError` is caught. -/
def failureEffect (o : FetchOutcome) (now : Int) (st : BreakerState) : BreakerState :=
  match o with
  | .rateLimited => recordFailure now st
  | .httpError => recordFailure now st
  | .bodyError => recordFailure now st
  | .authError => recordFailure now (recordFailure now st)
  | _ => st

/-- A fetch with a failing outcome never returns a normalised dict. -/
lemma fetch_not_ok (s : String) (now : Int) (o : FetchOutcome) (st : BreakerState)
    (h : o.isFail = true) (d : WeatherData) :
    (fetch_provider s now o st).1 ≠ .ok d := by
  unfold fetch_provider
  cases hb : (check_circuit_breaker MAX_FAILURES RESET_TIMEOUT now st).1 <;>
    cases o <;> simp_all [FetchOutcome.isFail]

/-- The first (weatherapi) leg of `get_weather` on a failing outcome:
record per `failureEffect`, emit one failed-heartbeat message, count the
network call, and hand over to the fallback leg. -/
lemma get_weather_fail_first (city : String) (now : Int) (oA oB : FetchOutcome)
    (st : ProxyState) (hA : st.weatherapi.failures < MAX_FAILURES)
    (hfail : oA.isFail = true) :
    ∃ u : Bool, get_weather city now oA oB st =
      tryFallback city now oB
        { st with weatherapi := failureEffect oA now st.weatherapi }
        [.failed "weatherapi" u] ["weatherapi"] := by
  have hca := check_closed MAX_FAILURES RESET_TIMEOUT now st.weatherapi hA
  cases oA
  case success c t cond => simp [FetchOutcome.isFail] at hfail
  case bodyError => exact ⟨true, by simp [get_weather, fetch_provider, hca, failureEffect]⟩
  all_goals exact ⟨false, by simp [get_weather, fetch_provider, hca, failureEffect]⟩

/-- The first (weatherapi) leg of `get_weather` on a successful outcome:
reset the count, set the active provider, emit the selected message and
return at once — the fallback leg is never reached. -/
lemma get_weather_first_success (city : String) (now : Int) (c : String) (t : Int)
    (cond : String) (oB : FetchOutcome) (st : ProxyState)
    (hA : st.weatherapi.failures < MAX_FAILURES) :
    get_weather city now (.success c t cond) oB st =
      { response := .ok { source := "weatherapi", city := c, temperature := t, condition := cond },
        state := { st with
                   weatherapi := recordSuccess st.weatherapi
                   active_api := "weatherapi" },
        events := [.selected "weatherapi" city],
        calls := ["weatherapi"] } := by
  have hca := check_closed MAX_FAILURES RESET_TIMEOUT now st.weatherapi hA
  simp [get_weather, fetch_provider, hca]

/-- The fallback leg never touches the weatherapi breaker entry. -/
lemma tryFallback_state_weatherapi (city : String) (now : Int) (oB : FetchOutcome)
    (st : ProxyState) (evs : List Event) (calls : List String) :
    (tryFallback city now oB st evs calls).state.weatherapi = st.weatherapi := by
  unfold tryFallback
  cases hcb : (check_circuit_breaker MAX_FAILURES RESET_TIMEOUT now st.weatherstack).1
  · simp [hcb]
  · rcases hf : fetch_provider "weatherstack" now oB
        (check_circuit_breaker MAX_FAILURES RESET_TIMEOUT now st.weatherstack).2 with ⟨res, b2⟩
    cases res <;> simp [hcb, hf]

/-- With the weatherstack breaker below threshold the fallback leg always
performs the weatherstack network call. -/
lemma tryFallback_calls (city : String) (now : Int) (oB : FetchOutcome)
    (st : ProxyState) (evs : List Event) (calls : List String)
    (hB : st.weatherstack.failures < MAX_FAILURES) :
    (tryFallback city now oB st evs calls).calls = calls ++ ["weatherstack"] := by
  have hcb := check_closed MAX_FAILURES RESET_TIMEOUT now st.weatherstack hB
  cases oB <;> simp [tryFallback, fetch_provider, hcb]

/-- The fallback leg on a successful outcome. -/
lemma tryFallback_success (city : String) (now : Int) (c : String) (t : Int)
    (cond : String) (st : ProxyState) (evs : List Event) (calls : List String)
    (hB : st.weatherstack.failures < MAX_FAILURES) :
    tryFallback city now (.success c t cond) st evs calls =
      { response :=
          .ok { source := "weatherstack", city := c, temperature := t, condition := cond },
        state := { st with
                   weatherstack := recordSuccess st.weatherstack
                   active_api := "weatherstack" },
        events := evs ++ [.selected "weatherstack" city],
        calls := calls ++ ["weatherstack"] } := by
  have hcb := check_closed MAX_FAILURES RESET_TIMEOUT now st.weatherstack hB
  simp [tryFallback, fetch_provider, hcb]

/-- The fallback leg on any failing outcome falls through to the stub. -/
lemma tryFallback_fail (city : String) (now : Int) (oB : FetchOutcome)
    (st : ProxyState) (evs : List Event) (calls : List String)
    (h : oB.isFail = true) :
    (tryFallback city now oB st evs calls).response = .stub (stubBody city now) := by
  unfold tryFallback
  cases hcb : (check_circuit_breaker MAX_FAILURES RESET_TIMEOUT now st.weatherstack).1
  · simp [hcb]
  · rcases hf : fetch_provider "weatherstack" now oB
        (check_circuit_breaker MAX_FAILURES RESET_TIMEOUT now st.weatherstack).2 with ⟨res, b2⟩
    cases res
    case ok d => exact absurd (congrArg Prod.fst hf) (fetch_not_ok _ now oB _ h d)
    all_goals simp [hcb, hf]

/-- The fallback leg when the weatherstack breaker refuses: stub response,
no weatherstack network call. -/
lemma tryFallback_skip (city : String) (now : Int) (oB : FetchOutcome)
    (st : ProxyState) (evs : List Event) (calls : List String)
    (hB : check_circuit_breaker MAX_FAILURES RESET_TIMEOUT now st.weatherstack =
      (false, st.weatherstack)) :
    tryFallback city now oB st evs calls =
      { response := .stub (stubBody city now), state := st,
        events := evs ++ [.skipped "weatherstack", .allFailed], calls := calls } := by
  simp [tryFallback, hB]

/-- Every fallback-leg response is the canonical stub or a normalised dict. -/
lemma tryFallback_response_shape (city : String) (now : Int) (oB : FetchOutcome)
    (st : ProxyState) (evs : List Event) (calls : List String) :
    (tryFallback city now oB st evs calls).response = .stub (stubBody city now) ∨
      ∃ d, (tryFallback city now oB st evs calls).response = .ok d := by
  unfold tryFallback
  cases hcb : (check_circuit_breaker MAX_FAILURES RESET_TIMEOUT now st.weatherstack).1
  · exact Or.inl (by simp [hcb])
  · rcases hf : fetch_provider "weatherstack" now oB
        (check_circuit_breaker MAX_FAILURES RESET_TIMEOUT now st.weatherstack).2 with ⟨res, b2⟩
    cases res
    case ok d => exact Or.inr ⟨d, by simp [hcb, hf]⟩
    all_goals exact Or.inl (by simp [hcb, hf])

/-- Every `get_weather` response is the canonical stub or a normalised
dict: no exception class ever escapes the handler. -/
lemma get_weather_response_shape (city : String) (now : Int) (oA oB : FetchOutcome)
    (st : ProxyState) :
    (get_weather city now oA oB st).response = .stub (stubBody city now) ∨
      ∃ d, (get_weather city now oA oB st).response = .ok d := by
  unfold get_weather
  cases hca : (check_circuit_breaker MAX_FAILURES RESET_TIMEOUT now st.weatherapi).1
  · simp only [hca, Bool.false_eq_true, if_false]
    exact tryFallback_response_shape city now oB _ _ _
  · rcases hf : fetch_provider "weatherapi" now oA
        (check_circuit_breaker MAX_FAILURES RESET_TIMEOUT now st.weatherapi).2 with ⟨res, a2⟩
    cases res
    case ok d => exact Or.inr ⟨d, by simp [hca, hf]⟩
    all_goals
      simp only [hca, if_true, hf]
      exact tryFallback_response_shape city now oB _ _ _

/-- A breaker in the derived Open state makes `check_circuit_breaker`
refuse without changing the state. -/
lemma breaker_open_check (now : Int) (st : BreakerState)
    (h : breakerIsOpen now st = true) :
    check_circuit_breaker MAX_FAILURES RESET_TIMEOUT now st = (false, st) := by
  unfold breakerIsOpen at h
  rcases hl : st.lastFailureAt with _ | t
  · rw [hl] at h
    simp at h
  · rw [hl] at h
    simp only [Bool.and_eq_true, decide_eq_true_eq] at h
    exact check_open _ _ now t st hl h.1 h.2

end Proxy

namespace Proxy

/-- C1 counterexample: at the initial breaker state a fetch whose outcome
is a timeout leaves the failure count unchanged at 0 and records no
failure time — nothing is recorded for the Timeout (and likewise
TransportError) classification, because only `httpx.HTTPStatusError` is
caught by the fetch functions' handler. -/
theorem timeout_failure_not_recorded_cex :
    (fetch_provider "weatherapi" 5 .timeout BreakerState.init).1 = .requestError ∧
      ¬ ((fetch_provider "weatherapi" 5 .timeout BreakerState.init).2.failures =
            BreakerState.init.failures + 1 ∧
          (fetch_provider "weatherapi" 5 .timeout BreakerState.init).2.lastFailureAt =
            some 5) := by
  decide

/-- C1 (amended): with both breakers below threshold, a rate-limit, other
HTTP error status, or error-marker body records exactly one failure
(incrementing the count and setting `lastFailureAt` to now); an auth error
records two; a timeout or connection error records nothing, leaving the
provider's breaker entry unchanged; in every failing case the orchestrator
continues to the next provider. -/
theorem failure_recording_by_classification (city : String) (now : Int)
    (oA oB : FetchOutcome) (st : ProxyState)
    (hA : st.weatherapi.failures < MAX_FAILURES)
    (hB : st.weatherstack.failures < MAX_FAILURES)
    (hfail : oA.isFail = true) :
    ((oA = .rateLimited ∨ oA = .httpError ∨ oA = .bodyError) →
      (get_weather city now oA oB st).state.weatherapi =
        recordFailure now st.weatherapi) ∧
    (oA = .authError →
      (get_weather city now oA oB st).state.weatherapi =
        recordFailure now (recordFailure now st.weatherapi)) ∧
    ((oA = .timeout ∨ oA = .transportError) →
      (get_weather city now oA oB st).state.weatherapi = st.weatherapi) ∧
    "weatherstack" ∈ (get_weather city now oA oB st).calls := by
  obtain ⟨u, hg⟩ := get_weather_fail_first city now oA oB st hA hfail
  refine ⟨?_, ?_, ?_, ?_⟩
  · rintro (rfl | rfl | rfl) <;>
      simp [hg, tryFallback_state_weatherapi, failureEffect]
  · rintro rfl
    simp [hg, tryFallback_state_weatherapi, failureEffect]
  · rintro (rfl | rfl) <;>
      simp [hg, tryFallback_state_weatherapi, failureEffect]
  · rw [hg, tryFallback_calls city now oB _ _ _ (by simpa using hB)]
    simp

/-- Witness for `failure_recording_by_classification` at the initial state
with a timeout on the primary: nothing recorded, fallback still tried. -/
theorem failure_recording_by_classification_witness :
    (get_weather "Delhi" 5 .timeout .timeout ProxyState.init).state.weatherapi =
        ProxyState.init.weatherapi ∧
      "weatherstack" ∈ (get_weather "Delhi" 5 .timeout .timeout ProxyState.init).calls := by
  have h := failure_recording_by_classification "Delhi" 5 .timeout .timeout
    ProxyState.init (by decide) (by decide) (by decide)
  exact ⟨h.2.2.1 (Or.inl rfl), h.2.2.2⟩

/-- C5: with both breakers permitting, a chain run where weatherapi fails
and weatherstack succeeds returns weatherstack's normalised dict, resets
weatherstack's failure count, emits the failed-primary heartbeat before
the fallback-selected heartbeat, performs exactly the two network calls in
chain order — and had the primary succeeded, the fallback would never have
been called (first success wins). -/
theorem resolve_fallback_first_success (city : String) (now : Int) (oA : FetchOutcome)
    (c : String) (t : Int) (cond : String) (st : ProxyState)
    (hA : st.weatherapi.failures < MAX_FAILURES)
    (hB : st.weatherstack.failures < MAX_FAILURES)
    (hfail : oA.isFail = true) :
    (get_weather city now oA (.success c t cond) st).response =
        .ok { source := "weatherstack", city := c, temperature := t, condition := cond } ∧
      (get_weather city now oA (.success c t cond) st).state.weatherstack.failures = 0 ∧
      (∃ u, (get_weather city now oA (.success c t cond) st).events =
        [.failed "weatherapi" u, .selected "weatherstack" city]) ∧
      (get_weather city now oA (.success c t cond) st).calls =
        ["weatherapi", "weatherstack"] ∧
      (∀ (c2 : String) (t2 : Int) (cd2 : String) (oB : FetchOutcome),
        (get_weather city now (.success c2 t2 cd2) oB st).calls = ["weatherapi"]) := by
  obtain ⟨u, hg⟩ := get_weather_fail_first city now oA (.success c t cond) st hA hfail
  have hs := tryFallback_success city now c t cond
    { st with weatherapi := failureEffect oA now st.weatherapi }
    [.failed "weatherapi" u] ["weatherapi"] (by simpa using hB)
  refine ⟨?_, ?_, ⟨u, ?_⟩, ?_, ?_⟩
  · rw [hg, hs]
  · rw [hg, hs]
    simp [recordSuccess]
  · rw [hg, hs]
    rfl
  · rw [hg, hs]
    rfl
  · intro c2 t2 cd2 oB
    rw [get_weather_first_success city now c2 t2 cd2 oB st hA]

/-- Witness for `resolve_fallback_first_success`: rate-limited primary,
successful fallback, from the initial state. -/
theorem resolve_fallback_first_success_witness :
    (get_weather "Delhi" 7 .rateLimited (.success "Delhi" 25 "Clear")
        ProxyState.init).response =
      .ok { source := "weatherstack", city := "Delhi", temperature := 25,
            condition := "Clear" } ∧
      (get_weather "Delhi" 7 .rateLimited (.success "Delhi" 25 "Clear")
          ProxyState.init).calls = ["weatherapi", "weatherstack"] := by
  have h := resolve_fallback_first_success "Delhi" 7 .rateLimited "Delhi" 25 "Clear"
    ProxyState.init (by decide) (by decide) (by decide)
  exact ⟨h.1, h.2.2.2.1⟩

/-- A proxy state with both breakers in the derived Open state at `now = 7`. -/
def openProxyState : ProxyState :=
  { weatherapi := { failures := 3, lastFailureAt := some 5 },
    weatherstack := { failures := 4, lastFailureAt := some 6 },
    active_api := "weatherapi" }

/-- C6: when both outcomes fail the handler returns exactly the 503 stub
body (query echoed, null payload, fixed "Unavailable" marker, message,
timestamp); every response whatsoever is either that canonical stub or a
normalised success dict — no exception class ever escapes to the caller;
and when both breakers are open the stub is returned with no network call
performed. -/
theorem resolve_exhausted_degraded (city : String) (now : Int) (oA oB : FetchOutcome)
    (st : ProxyState) :
    (oA.isFail = true → oB.isFail = true →
      (get_weather city now oA oB st).response = .stub (stubBody city now)) ∧
    ((get_weather city now oA oB st).response = .stub (stubBody city now) ∨
      ∃ d, (get_weather city now oA oB st).response = .ok d) ∧
    (breakerIsOpen now st.weatherapi = true → breakerIsOpen now st.weatherstack = true →
      (get_weather city now oA oB st).response = .stub (stubBody city now) ∧
        (get_weather city now oA oB st).calls = []) ∧
    (stubBody city now).temperature = none ∧
    (stubBody city now).condition = "Unavailable" ∧
    (stubBody city now).city = city ∧
    (stubBody city now).timestamp = now ∧
    (WeatherResponse.stub (stubBody city now)).statusCode = 503 := by
  refine ⟨?_, get_weather_response_shape city now oA oB st, ?_, rfl, rfl, rfl, rfl, rfl⟩
  · intro hfa hfb
    cases hca : (check_circuit_breaker MAX_FAILURES RESET_TIMEOUT now st.weatherapi).1
    · simp only [get_weather, hca, Bool.false_eq_true, if_false]
      exact tryFallback_fail city now oB _ _ _ hfb
    · rcases hf : fetch_provider "weatherapi" now oA
          (check_circuit_breaker MAX_FAILURES RESET_TIMEOUT now st.weatherapi).2 with ⟨res, a2⟩
      cases res
      case ok d => exact absurd (congrArg Prod.fst hf) (fetch_not_ok _ now oA _ hfa d)
      all_goals
        simp only [get_weather, hca, if_true, hf]
        exact tryFallback_fail city now oB _ _ _ hfb
  · intro hoA hoB
    have hca := breaker_open_check now st.weatherapi hoA
    have hcb := breaker_open_check now st.weatherstack hoB
    have hg : get_weather city now oA oB st =
        tryFallback city now oB st [.skipped "weatherapi"] [] := by
      simp [get_weather, hca]
    rw [hg, tryFallback_skip city now oB st _ _ hcb]
    exact ⟨rfl, rfl⟩

/-- Witness for `resolve_exhausted_degraded`: both outcomes failing from
the initial state, and both breakers open in `openProxyState`. -/
theorem resolve_exhausted_degraded_witness :
    (get_weather "Delhi" 7 .timeout .bodyError ProxyState.init).response =
        .stub (stubBody "Delhi" 7) ∧
      (get_weather "Delhi" 7 .timeout .timeout openProxyState).response =
          .stub (stubBody "Delhi" 7) ∧
      (get_weather "Delhi" 7 .timeout .timeout openProxyState).calls = [] := by
  have h1 := (resolve_exhausted_degraded "Delhi" 7 .timeout .bodyError ProxyState.init).1
    (by decide) (by decide)
  have h2 := (resolve_exhausted_degraded "Delhi" 7 .timeout .timeout openProxyState).2.2.1
    (by decide) (by decide)
  exact ⟨h1, h2.1, h2.2⟩

end Proxy

namespace Proxy

/-- Filtering for a client that is not in the list yields nothing. -/
lemma filter_beq_of_not_mem (l : List Nat) (k : Nat) (h : k ∉ l) :
    l.filter (fun c => c == k) = [] := by
  induction l with
  | nil => rfl
  | cons a l ih =>
      simp only [List.mem_cons, not_or] at h
      have ha : ¬ a = k := fun hh => h.1 hh.symm
      simp [List.filter_cons, ha, ih h.2]

/-- On a duplicate-free registry containing `k`, filtering for `k` yields
exactly `[k]`. -/
lemma filter_beq_single (l : List Nat) (k : Nat) (h1 : l.Nodup) (h2 : k ∈ l) :
    l.filter (fun c => c == k) = [k] := by
  induction l with
  | nil => simp at h2
  | cons a l ih =>
      rcases List.mem_cons.mp h2 with rfl | hmem
      · have hk : k ∉ l := (List.nodup_cons.mp h1).1
        simp [List.filter_cons, filter_beq_of_not_mem l k hk]
      · have ha : ¬ a = k := by
          rintro rfl
          exact (List.nodup_cons.mp h1).1 hmem
        simp [List.filter_cons, ha, ih (List.nodup_cons.mp h1).2 hmem]

/-- C7: publishing to a duplicate-free registry in which delivery to
exactly subscriber `k` fails delivers the event to every other subscriber
of the same publish, removes exactly `k` (one `list.remove`, guarded so it
runs at most once), keeps every other subscriber, and a subsequent publish
still delivers to all remaining subscribers. -/
theorem publish_prunes_exactly_failing (clients : List Nat) (k : Nat)
    (h1 : clients.Nodup) (h2 : k ∈ clients) :
    (notify_heartbeat clients (fun c => c == k)).1 =
        clients.filter (fun c => !(c == k)) ∧
      (notify_heartbeat clients (fun c => c == k)).2 = clients.erase k ∧
      k ∉ (notify_heartbeat clients (fun c => c == k)).2 ∧
      (∀ x, x ∈ clients → x ≠ k → x ∈ (notify_heartbeat clients (fun c => c == k)).2) ∧
      (notify_heartbeat (notify_heartbeat clients (fun c => c == k)).2
          (fun _ => false)).1 =
        (notify_heartbeat clients (fun c => c == k)).2 := by
  have hfilter := filter_beq_single clients k h1 h2
  have hsnd : (notify_heartbeat clients (fun c => c == k)).2 = clients.erase k := by
    unfold notify_heartbeat
    simp only [hfilter, List.foldl]
    simp [h2]
  refine ⟨rfl, hsnd, ?_, ?_, ?_⟩
  · rw [hsnd]
    intro hmem
    exact ((List.Nodup.mem_erase_iff h1).mp hmem).1 rfl
  · intro x hx hne
    rw [hsnd]
    exact (List.mem_erase_of_ne hne).mpr hx
  · unfold notify_heartbeat
    simp

/-- Witness for `publish_prunes_exactly_failing` on the registry
`[1, 2, 3]` with delivery to subscriber `2` failing. -/
theorem publish_prunes_exactly_failing_witness :
    (notify_heartbeat [1, 2, 3] (fun c => c == 2)).1 = [1, 3] ∧
      (notify_heartbeat [1, 2, 3] (fun c => c == 2)).2 = [1, 3] := by
  have h := publish_prunes_exactly_failing [1, 2, 3] 2 (by decide) (by decide)
  exact ⟨h.1.trans (by decide), h.2.1.trans (by decide)⟩

/-- A proxy state whose weatherapi breaker is in the Probing state at
`now = 400`: three failures recorded, last at `t = 0`, reset timeout long
elapsed. -/
def probingProxyState : ProxyState :=
  { weatherapi := { failures := 3, lastFailureAt := some 0 },
    weatherstack := BreakerState.init, active_api := "weatherapi" }

/-- C8 counterexample: at `now = 400` the weatherapi breaker of
`probingProxyState` is not in the Open state (the reset timeout elapsed at
`t = 300`, so `check_circuit_breaker` would permit), yet `/health` reports
its status as `"open"` and lists it among the inactive providers — the
endpoint compares only `failure_counts` against the threshold and ignores
the elapsed time. -/
theorem health_probing_reported_open_cex :
    breakerIsOpen 400 probingProxyState.weatherapi = false ∧
      (check_circuit_breaker MAX_FAILURES RESET_TIMEOUT 400
          probingProxyState.weatherapi).1 = true ∧
      (health probingProxyState 400).breaker_weatherapi = "open" ∧
      "weatherapi" ∈ (health probingProxyState 400).inactive_apis := by
  refine ⟨by decide, by decide, rfl, ?_⟩
  simp [health, probingProxyState, circuitStatus, BreakerState.init, MAX_FAILURES]

/-- C8 (amended): `/health` reports `"open"` for a provider exactly when
that provider's failure count has reached the threshold — regardless of
how long ago the last failure happened — and `inactive_apis` lists exactly
the providers whose count has reached the threshold. -/
theorem health_reports_threshold_only (st : ProxyState) (now : Int) :
    ((health st now).breaker_weatherapi = "open" ↔
        MAX_FAILURES ≤ st.weatherapi.failures) ∧
      ((health st now).breaker_weatherstack = "open" ↔
        MAX_FAILURES ≤ st.weatherstack.failures) ∧
      ("weatherapi" ∈ (health st now).inactive_apis ↔
        MAX_FAILURES ≤ st.weatherapi.failures) ∧
      ("weatherstack" ∈ (health st now).inactive_apis ↔
        MAX_FAILURES ≤ st.weatherstack.failures) := by
  unfold health circuitStatus
  by_cases ha : MAX_FAILURES ≤ st.weatherapi.failures <;>
    by_cases hb : MAX_FAILURES ≤ st.weatherstack.failures <;>
      simp [ha, hb]

end Proxy
